import Mathlib

/-!
Verification of the Bluetooth-to-iPod bridge (`bt-ipod-bridge.py`).

This file shallowly embeds the state and operations of the bridge:
the sync-loop dedup policy (`BTiPodBridge._sync_loop`), the connection
check (`BluetoothAudioReceiver.check_connection_and_update_pulseaudio`),
the track-info fetch (`BluetoothAudioReceiver.get_track_info`), the
accessory process manager (`IPodClient.start/stop/send_metadata/
read_stdout_line`), and the inbound-command loop
(`BTiPodBridge._ipod_monitor_loop`).  External effects (D-Bus results,
PulseAudio outcomes, pipe write/read outcomes) are passed in as explicit
outcome values; each Lean function follows the Python control flow.
-/

namespace BtIpodBridge

/-- The four significant now-playing fields, mirroring the
`title`/`artist`/`album`/`duration` keys of the Python track dicts
(`duration` is a millisecond count). -/
structure TrackMetadata where
  title : String
  artist : String
  album : String
  duration : Nat
deriving DecidableEq

/-- The all-blank snapshot `{'title': '', 'artist': '', 'album': '', 'duration': 0}`. -/
def emptyTrack : TrackMetadata := ⟨"", "", "", 0⟩

/-- Python truthiness of `any(...)` over the four significant values:
a string is truthy iff non-empty, the duration iff non-zero. -/
def anyFields (t : TrackMetadata) : Bool :=
  decide (t.title ≠ "") || decide (t.artist ≠ "") ||
    decide (t.album ≠ "") || decide (t.duration ≠ 0)

/-! ## `IPodClient.send_metadata` burst construction -/

/-- The `lines_to_send` list built by `IPodClient.send_metadata`:
`TITLE`/`ARTIST`/`ALBUM` appended only when truthy (non-empty),
`DURATION` always appended. -/
def metadataLines (t : TrackMetadata) : List String :=
  ((if t.title ≠ "" then ["TITLE=" ++ t.title] else []) ++
   (if t.artist ≠ "" then ["ARTIST=" ++ t.artist] else []) ++
   (if t.album ≠ "" then ["ALBUM=" ++ t.album] else [])) ++
  ["DURATION=" ++ toString t.duration]

/-- `data_string = "\n".join(lines_to_send) + "\n"`. -/
def metadataBurst (t : TrackMetadata) : String :=
  String.intercalate "\n" (metadataLines t) ++ "\n"

/-- Joining every line with a trailing newline; the shape the spec
describes (`KEY=VALUE\n` per present field). -/
def joinTerminated : List String → String
  | [] => ""
  | a :: l => a ++ "\n" ++ joinTerminated l

theorem intercalate_go_newline (l : List String) (acc : String) :
    String.intercalate.go acc "\n" l ++ "\n" = acc ++ "\n" ++ joinTerminated l := by
  induction l generalizing acc with
  | nil => simp [String.intercalate.go, joinTerminated]
  | cons b l ih =>
    show String.intercalate.go (acc ++ "\n" ++ b) "\n" l ++ "\n" = _
    rw [ih]
    simp [joinTerminated, String.append_assoc]

theorem intercalate_newline_eq_joinTerminated (a : String) (l : List String) :
    String.intercalate "\n" (a :: l) ++ "\n" = joinTerminated (a :: l) := by
  show String.intercalate.go a "\n" l ++ "\n" = _
  rw [intercalate_go_newline]
  simp [joinTerminated]

/-- C3: every burst passed to `IPodClient.send_metadata` is a single
newline-terminated sequence of `KEY=VALUE` lines in the fixed order
`TITLE`, `ARTIST`, `ALBUM`, `DURATION`; `TITLE`/`ARTIST`/`ALBUM` are
omitted entirely when empty, and `DURATION` is always present as an
integer millisecond count. -/
theorem metadata_burst_framing (t : TrackMetadata) :
    metadataBurst t =
      (if t.title = "" then "" else "TITLE=" ++ t.title ++ "\n") ++
      ((if t.artist = "" then "" else "ARTIST=" ++ t.artist ++ "\n") ++
       ((if t.album = "" then "" else "ALBUM=" ++ t.album ++ "\n") ++
        ("DURATION=" ++ toString t.duration ++ "\n"))) := by
  unfold metadataBurst metadataLines
  by_cases h1 : t.title = "" <;> by_cases h2 : t.artist = "" <;> by_cases h3 : t.album = "" <;>
    simp [h1, h2, h3, intercalate_newline_eq_joinTerminated, joinTerminated,
      String.append_assoc]

/-! ## `BTiPodBridge._sync_loop` metadata dedup policy -/

/-- The coordinator's `last_sent_track_info` dict.  It is `{}` at
start-up, a full copy of `current_track` (including `position`) after a
successful non-blank send, or the four-field empty dict after a
successful blank "clear" send. -/
inductive LastSent where
  | empty0 : LastSent
  | full : TrackMetadata → Nat → LastSent
  | cleared : LastSent
deriving DecidableEq

/-- Python `any(self.last_sent_track_info.values())`: truthiness over
every stored value, the `position` key included when present. -/
def lastAny : LastSent → Bool
  | .empty0 => false
  | .full t pos => anyFields t || decide (pos ≠ 0)
  | .cleared => false

/-- `relevant_last_sent = {k: last_sent_track_info.get(k) for k in [...]}`:
`none` stands for the dict of all-`None` values obtained from `{}`. -/
def relevantOf : LastSent → Option TrackMetadata
  | .empty0 => none
  | .full t _ => some t
  | .cleared => some emptyTrack

/-- `relevant_current != relevant_last_sent` (a four-field value is never
equal to the all-`None` dict coming from the initial `{}`). -/
def differs (l : LastSent) (cur : TrackMetadata) : Bool :=
  match relevantOf l with
  | none => true
  | some t => decide (t ≠ cur)

/-- One metadata tick of `BTiPodBridge._sync_loop` while a device is
active: `cur`/`pos` is the snapshot returned by `get_track_info`, `ok`
the success of `IPodClient.send_metadata`.  Returns the four-field
payload handed to `send_metadata` (if any) and the new
`last_sent_track_info`. -/
def syncStep (l : LastSent) (cur : TrackMetadata) (pos : Nat) (ok : Bool) :
    Option TrackMetadata × LastSent :=
  if differs l cur && anyFields cur then
    (some cur, if ok then .full cur pos else l)
  else if !anyFields cur && lastAny l then
    (some emptyTrack, if ok then .cleared else l)
  else
    (none, l)

/-- "The previously sent snapshot was not blank": a non-blank snapshot
has actually been sent (and not since cleared). -/
def prevSentNonBlank : LastSent → Bool
  | .full t _ => anyFields t
  | _ => false

/-- The claim's write condition: the four fields differ from the last
sent snapshot and at least one is non-empty/non-zero, or the new
snapshot is entirely blank while the previously sent one was not. -/
def claimCondition (l : LastSent) (cur : TrackMetadata) : Bool :=
  (differs l cur && anyFields cur) || (!anyFields cur && prevSentNonBlank l)

/-- `last_sent_track_info` states reachable from start-up via metadata
ticks. -/
inductive ReachableLS : LastSent → Prop
  | start : ReachableLS .empty0
  | tick (l : LastSent) (cur : TrackMetadata) (pos : Nat) (ok : Bool) :
      ReachableLS l → ReachableLS (syncStep l cur pos ok).2

/-- In every reachable `full` state the stored snapshot is non-blank:
the non-blank send branch only fires when `anyFields` holds. -/
theorem reachable_full_nonBlank (l : LastSent) (h : ReachableLS l) :
    ∀ t pos, l = .full t pos → anyFields t = true := by
  induction h with
  | start => intro t pos h; cases h
  | tick l cur pos ok _ ih =>
    intro t p heq
    unfold syncStep at heq
    cases ok with
    | true =>
      by_cases h1 : (differs l cur && anyFields cur) = true
      · rw [if_pos h1] at heq
        simp at heq
        obtain ⟨ht, _⟩ := heq
        subst ht
        exact ((Bool.and_eq_true _ _).mp h1).2
      · rw [if_neg h1] at heq
        by_cases h2 : (!anyFields cur && lastAny l) = true
        · rw [if_pos h2] at heq
          simp at heq
        · rw [if_neg h2] at heq
          simp at heq
          exact ih t p heq
    | false =>
      by_cases h1 : (differs l cur && anyFields cur) = true
      · rw [if_pos h1] at heq
        simp at heq
        exact ih t p heq
      · rw [if_neg h1] at heq
        by_cases h2 : (!anyFields cur && lastAny l) = true
        · rw [if_pos h2] at heq
          simp at heq
          exact ih t p heq
        · rw [if_neg h2] at heq
          simp at heq
          exact ih t p heq

/-- On reachable states, the truthiness test the code runs on the whole
stored dict agrees with "the previously sent snapshot was non-blank". -/
theorem lastAny_eq_prevSentNonBlank (l : LastSent) (h : ReachableLS l) :
    lastAny l = prevSentNonBlank l := by
  cases l with
  | empty0 => rfl
  | cleared => rfl
  | full t pos =>
    have ht := reachable_full_nonBlank _ h t pos rfl
    simp [lastAny, prevSentNonBlank, ht]

/-- C1: on every reachable `last_sent_track_info` state, a metadata tick
writes to the accessory iff the four significant fields differ from the
last sent snapshot and at least one is non-empty/non-zero, or the new
snapshot is entirely blank while the previously sent one was not; after
a successful write the memo holds exactly the four fields that were
sent; and two consecutive all-empty snapshots never produce two writes
(after a successful blank write, a second blank snapshot writes
nothing). -/
theorem sync_dedup_policy :
    (∀ l cur pos ok, ReachableLS l →
        (syncStep l cur pos ok).1.isSome = claimCondition l cur) ∧
    (∀ l cur pos w, (syncStep l cur pos true).1 = some w →
        relevantOf (syncStep l cur pos true).2 = some w) ∧
    (∀ l c1 c2 p1 p2 ok2, anyFields c1 = false → anyFields c2 = false →
        (syncStep (syncStep l c1 p1 true).2 c2 p2 ok2).1 = none) := by
  refine ⟨?_, ?_, ?_⟩
  · intro l cur pos ok h
    have hla := lastAny_eq_prevSentNonBlank l h
    unfold syncStep
    by_cases h1 : (differs l cur && anyFields cur) = true
    · rw [if_pos h1]
      simp [claimCondition, h1]
    · rw [if_neg h1]
      simp at h1
      by_cases h2 : (!anyFields cur && lastAny l) = true
      · rw [if_pos h2]
        rw [hla] at h2
        simp [claimCondition, h1, h2]
      · rw [if_neg h2]
        simp at h2
        rw [hla] at h2
        simp [claimCondition, h1, h2]
        exact ⟨h1, h2⟩
  · intro l cur pos w heq
    unfold syncStep at heq ⊢
    by_cases h1 : (differs l cur && anyFields cur) = true
    · rw [if_pos h1] at heq ⊢
      simp at heq
      subst heq
      simp [relevantOf]
    · rw [if_neg h1] at heq ⊢
      by_cases h2 : (!anyFields cur && lastAny l) = true
      · rw [if_pos h2] at heq ⊢
        simp at heq
        subst heq
        simp [relevantOf]
      · rw [if_neg h2] at heq
        simp at heq
  · intro l c1 c2 p1 p2 ok2 h1 h2
    have hlast : lastAny (syncStep l c1 p1 true).2 = false := by
      unfold syncStep
      by_cases hd : (differs l c1 && anyFields c1) = true
      · exfalso
        rw [Bool.and_eq_true, h1] at hd
        exact Bool.false_ne_true hd.2
      · rw [if_neg hd]
        by_cases hl : (!anyFields c1 && lastAny l) = true
        · rw [if_pos hl]
          rfl
        · rw [if_neg hl]
          simp [h1] at hl
          exact hl
    generalize hgen : (syncStep l c1 p1 true).2 = s1
    rw [hgen] at hlast
    unfold syncStep
    by_cases hd2 : (differs s1 c2 && anyFields c2) = true
    · exfalso
      rw [Bool.and_eq_true, h2] at hd2
      exact Bool.false_ne_true hd2.2
    · have hne : ¬((!anyFields c2 && lastAny s1) = true) := by
        simp [hlast]
      rw [if_neg hd2, if_neg hne]

/-- A concrete non-blank snapshot used to instantiate theorems. -/
def songA : TrackMetadata := ⟨"Song A", "Band X", "", 180000⟩

theorem sync_dedup_policy_witness :
    ((syncStep .empty0 songA 0 true).1.isSome = claimCondition .empty0 songA) ∧
    (relevantOf (syncStep .empty0 songA 0 true).2 = some songA) ∧
    ((syncStep (syncStep (.full songA 0) emptyTrack 0 true).2 emptyTrack 0 true).1 = none) :=
  ⟨sync_dedup_policy.1 .empty0 songA 0 true ReachableLS.start,
   sync_dedup_policy.2.1 .empty0 songA 0 songA (by decide),
   sync_dedup_policy.2.2 (.full songA 0) emptyTrack emptyTrack 0 0 true (by decide) (by decide)⟩

/-! ## `BTiPodBridge._ipod_monitor_loop` inbound command mapping -/

/-- The transport commands the bridge can forward to the Bluetooth
device (`play`/`pause`/`next_track`/`previous_track`/`stop_playback`). -/
inductive TransportCommand where
  | play | pause | next | previous | stop
deriving DecidableEq

/-- Python `line.upper()`, character-wise upper-casing (the command
tokens are plain ASCII). -/
def pyUpper (s : String) : String :=
  String.mk (s.data.map Char.toUpper)

/-- The exact-match table of `_ipod_monitor_loop`: the line is upper-cased
(`command = line.upper()`) and compared against the fixed token set. -/
def parseCommand (line : String) : Option TransportCommand :=
  let command := pyUpper line
  if command = "PLAY" then some .play
  else if command = "PAUSE" then some .pause
  else if command = "NEXT" then some .next
  else if command = "PREVIOUS" ∨ command = "PREV" then some .previous
  else if command = "STOP" then some .stop
  else none

/-- What one iteration of `_ipod_monitor_loop` does with the value
returned by `read_stdout_line`. -/
inductive MonitorStep where
  | exitLoop : MonitorStep
  | skipLine : MonitorStep
  | dispatch : TransportCommand → MonitorStep
  | ignoreUnknown : MonitorStep
deriving DecidableEq

/-- One iteration of `_ipod_monitor_loop`: `None` breaks the loop, an
empty line is skipped, a recognized token dispatches one transport
command, anything else is logged and ignored. -/
def monitorStep : Option String → MonitorStep
  | none => .exitLoop
  | some l =>
    if l = "" then .skipLine
    else
      match parseCommand l with
      | some c => .dispatch c
      | none => .ignoreUnknown

/-- Number of adapter (transport command) calls an iteration makes. -/
def adapterCalls : MonitorStep → Nat
  | .dispatch _ => 1
  | _ => 0

/-- Whether an iteration terminates the monitor loop. -/
def stopsLoop : MonitorStep → Bool
  | .exitLoop => true
  | _ => false

/-- C4: `"play"`, `"PLAY"` and `"Play"` map to the same Play command,
`"prev"` and `"previous"` map to the same Previous command, a line is
recognized exactly when its upper-casing is one of `PLAY`, `PAUSE`,
`NEXT`, `PREVIOUS`, `PREV`, `STOP`, an iteration makes one adapter call
when the line is recognized and zero otherwise, and no line ever
terminates the loop. -/
theorem command_mapping_table :
    (parseCommand "play" = some .play ∧ parseCommand "PLAY" = some .play ∧
     parseCommand "Play" = some .play) ∧
    (parseCommand "prev" = some .previous ∧ parseCommand "previous" = some .previous) ∧
    (parseCommand "pause" = some .pause ∧ parseCommand "next" = some .next ∧
     parseCommand "stop" = some .stop) ∧
    (∀ l, (parseCommand l).isSome =
        decide (pyUpper l ∈ (["PLAY", "PAUSE", "NEXT", "PREVIOUS", "PREV", "STOP"] : List String))) ∧
    (∀ l, adapterCalls (monitorStep (some l)) = if (parseCommand l).isSome then 1 else 0) ∧
    (∀ l, stopsLoop (monitorStep (some l)) = false) := by
  refine ⟨by decide, by decide, by decide, ?_, ?_, ?_⟩
  · intro l
    simp only [parseCommand]
    split_ifs <;> simp_all [List.mem_cons]
    tauto
  · intro l
    by_cases hl : l = ""
    · subst hl
      decide
    · simp only [monitorStep, if_neg hl]
      cases hp : parseCommand l <;> simp [adapterCalls, hp]
  · intro l
    by_cases hl : l = ""
    · subst hl
      decide
    · simp only [monitorStep, if_neg hl]
      cases hp : parseCommand l <;> simp [stopsLoop]

/-! ## `BluetoothAudioReceiver.get_track_info` -/

/-- The receiver's `current_track` dict: the four significant fields
plus the `position` key. -/
structure CurrentTrack where
  title : String
  artist : String
  album : String
  duration : Nat
  position : Nat
deriving DecidableEq

/-- `{'title': '', 'artist': '', 'album': '', 'duration': 0, 'position': 0}`. -/
def emptyCurrent : CurrentTrack := ⟨"", "", "", 0, 0⟩

/-- How one call to `get_track_info` plays out against D-Bus:
`noBus` (`self.bus` unset), `noPlayer` (`find_media_player` yields
nothing), `dbusError` (a `DBusException` from `GetAll`; `playerGone` is
whether its message contains "doesn't exist" or "disconnected"),
`otherError` (any other exception), or `propsOk` where the `Track`
property is absent (`none`) or a complete snapshot. -/
inductive FetchOutcome where
  | noBus : FetchOutcome
  | noPlayer : FetchOutcome
  | dbusError : Bool → FetchOutcome
  | otherError : FetchOutcome
  | propsOk : Option CurrentTrack → FetchOutcome
deriving DecidableEq

/-- Whether the fetch hit an error (as opposed to reading properties
successfully). -/
def fetchFailed : FetchOutcome → Bool
  | .propsOk _ => false
  | _ => true

/-- `BluetoothAudioReceiver.get_track_info`: returns (and stores) the
track dict.  On `noBus`/`noPlayer`/`otherError` and on D-Bus errors not
indicating a vanished player it returns the stored `current_track`
unchanged; on a D-Bus error whose message says the player is gone it
resets `current_track` to the all-empty dict and returns that; on a
successful property read with a `Track` entry it stores and returns the
complete new snapshot. -/
def get_track_info (cur : CurrentTrack) (o : FetchOutcome) : CurrentTrack :=
  match o with
  | .noBus => cur
  | .noPlayer => cur
  | .dbusError playerGone => if playerGone then emptyCurrent else cur
  | .otherError => cur
  | .propsOk none => cur
  | .propsOk (some t) => t

/-- A concrete non-blank `current_track` value. -/
def songACurrent : CurrentTrack := ⟨"Song A", "Band X", "", 180000, 0⟩

/-- C5 counterexample: a D-Bus error whose message marks the player as
gone is an error of the fetch, yet `get_track_info` does not return the
previously known snapshot unchanged — it resets it to the all-empty
snapshot. -/
theorem fetch_fallback_counterexample :
    fetchFailed (.dbusError true) = true ∧
    get_track_info songACurrent (.dbusError true) ≠ songACurrent ∧
    get_track_info songACurrent (.dbusError true) = emptyCurrent := by
  refine ⟨rfl, ?_, rfl⟩
  intro h
  have := congrArg CurrentTrack.duration h
  simp [get_track_info, emptyCurrent, songACurrent] at this

/-- C5 (amended): a fetch never yields a partial snapshot and never
fails the caller: it returns the previous snapshot unchanged, or the
complete snapshot read from the player, or — exactly when a D-Bus error
marks the player as gone — the complete all-empty snapshot. -/
theorem fetch_fallback_total (cur : CurrentTrack) (o : FetchOutcome) :
    get_track_info cur o = cur ∨
    (∃ t, o = .propsOk (some t) ∧ get_track_info cur o = t) ∨
    (o = .dbusError true ∧ get_track_info cur o = emptyCurrent) := by
  cases o with
  | noBus => left; rfl
  | noPlayer => left; rfl
  | otherError => left; rfl
  | dbusError g =>
    cases g with
    | false => left; rfl
    | true => right; right; exact ⟨rfl, rfl⟩
  | propsOk t =>
    cases t with
    | none => left; rfl
    | some t => right; left; exact ⟨t, rfl, rfl⟩

/-! ## `IPodClient` process lifecycle -/

/-- The handle held in `self.process`: `exited` is whether
`self.process.poll()` returns non-`None`. -/
structure ProcHandle where
  exited : Bool
deriving DecidableEq

/-- The `IPodClient` fields relevant to lifecycle: `self.process`
(`none` = `None`) and `self.running`. -/
structure IPodClientState where
  process : Option ProcHandle
  running : Bool
deriving DecidableEq

/-- `IPodClient.__init__`: `self.process = None`, `self.running = False`. -/
def initClient : IPodClientState := ⟨none, false⟩

/-- `self.process and self.process.poll() is None`. -/
def procAlive (c : IPodClientState) : Bool :=
  match c.process with
  | some p => !p.exited
  | none => false

/-- A live client, for instantiating theorems. -/
def liveClient : IPodClientState := ⟨some ⟨false⟩, true⟩

/-- Observable operations `IPodClient.stop` performs on the child
process.  Stream-closing operations are listed so their absence can be
stated. -/
inductive StopAction where
  | terminate : StopAction
  | waitProc : StopAction
  | kill : StopAction
  | closeStdin : StopAction
  | closeStdout : StopAction
  | closeStderr : StopAction
deriving DecidableEq

/-- How the termination attempt in `IPodClient.stop` plays out:
`graceful` (the first wait succeeds); `timedOut` (`TimeoutExpired`, so
the handler kills and its second `wait(timeout=5)` succeeds);
`killWaitTimedOut` (that post-kill wait itself raises `TimeoutExpired`,
which no sibling handler catches, so `stop` propagates the exception);
`raised stillAlive` (some other exception, and the fallback handler —
which kills and waits only if the process still reports alive —
completes); `raisedThenKillRaises` (the fallback handler's own
kill/wait raises, so `stop` propagates). -/
inductive StopOutcome where
  | graceful : StopOutcome
  | timedOut : StopOutcome
  | killWaitTimedOut : StopOutcome
  | raised : Bool → StopOutcome
  | raisedThenKillRaises : StopOutcome
deriving DecidableEq

/-- `IPodClient.stop`: sets `self.running = False` on entry; if a live
process exists, terminates (and on timeout or lingering error, kills)
it.  The final `self.process = None` is not in a `finally`: when an
exception escapes one of the `except` handlers it is skipped and the
exception propagates to the caller with the process reference left in
place.  Returns the new state, the list of actions performed on the
child process, and whether `stop` raised. -/
def IPodClientState.stop (c : IPodClientState) (o : StopOutcome) :
    IPodClientState × List StopAction × Bool :=
  if procAlive c then
    match o with
    | .graceful =>
        (⟨none, false⟩, [StopAction.terminate, StopAction.waitProc], false)
    | .timedOut =>
        (⟨none, false⟩, [StopAction.terminate, StopAction.waitProc,
                         StopAction.kill, StopAction.waitProc], false)
    | .killWaitTimedOut =>
        (⟨c.process, false⟩, [StopAction.terminate, StopAction.waitProc,
                              StopAction.kill, StopAction.waitProc], true)
    | .raised stillAlive =>
        (⟨none, false⟩, [StopAction.terminate, StopAction.waitProc] ++
            (if stillAlive then [StopAction.kill, StopAction.waitProc] else []), false)
    | .raisedThenKillRaises =>
        (⟨c.process, false⟩, [StopAction.terminate, StopAction.waitProc,
                              StopAction.kill, StopAction.waitProc], true)
  else (⟨none, false⟩, [], false)

/-- `self.running = False` runs first, so it is down after every
`stop`, raising or not. -/
theorem stop_running_false (c : IPodClientState) (o : StopOutcome) :
    (c.stop o).1.running = false := by
  unfold IPodClientState.stop
  by_cases hp : procAlive c = true
  · rw [if_pos hp]
    cases o <;> rfl
  · rw [if_neg hp]

/-- A `stop` that returns normally reaches `self.process = None`. -/
theorem stop_completes_clears (c : IPodClientState) (o : StopOutcome)
    (h : (c.stop o).2.2 = false) : (c.stop o).1 = ⟨none, false⟩ := by
  unfold IPodClientState.stop at h ⊢
  by_cases hp : procAlive c = true
  · rw [if_pos hp] at h ⊢
    cases o with
    | graceful => rfl
    | timedOut => rfl
    | killWaitTimedOut => simp at h
    | raised b => rfl
    | raisedThenKillRaises => simp at h
  · rw [if_neg hp]

/-- A `stop` that raises skips `self.process = None`: the process
reference is left unchanged. -/
theorem stop_raises_keeps (c : IPodClientState) (o : StopOutcome)
    (h : (c.stop o).2.2 = true) : (c.stop o).1 = ⟨c.process, false⟩ := by
  unfold IPodClientState.stop at h ⊢
  by_cases hp : procAlive c = true
  · rw [if_pos hp] at h ⊢
    cases o with
    | graceful => simp at h
    | timedOut => simp at h
    | killWaitTimedOut => rfl
    | raised b => simp at h
    | raisedThenKillRaises => rfl
  · rw [if_neg hp] at h
    simp at h

/-- Whether a stop action closes one of the child's streams. -/
def closesStream (a : StopAction) : Bool :=
  decide (a = StopAction.closeStdin) || decide (a = StopAction.closeStdout) ||
    decide (a = StopAction.closeStderr)

/-- How `IPodClient.start` plays out once it decides to start:
module loading fails, the device node never appears, the executable is
missing (`FileNotFoundError`), `Popen` raises some other exception
(`popenRaised` carries whether a process object was created before the
failure), or the spawn succeeds. -/
inductive StartOutcome where
  | modulesFailed : StartOutcome
  | deviceNotReady : StartOutcome
  | exeNotFound : StartOutcome
  | popenRaised : StartOutcome
  | spawnOk : StartOutcome
deriving DecidableEq

/-- `IPodClient.start`: returns `(result, new state, whether a new
process was spawned)`.  If a live process already exists it returns
success immediately without touching anything. -/
def IPodClientState.start (c : IPodClientState) (o : StartOutcome) :
    Bool × IPodClientState × Bool :=
  if procAlive c then (true, c, false)
  else
    match o with
    | .modulesFailed => (false, c, false)
    | .deviceNotReady => (false, c, false)
    | .exeNotFound => (false, ⟨none, c.running⟩, false)
    | .popenRaised => (false, ⟨none, c.running⟩, true)
    | .spawnOk => (true, ⟨some ⟨false⟩, true⟩, true)

/-- C7 counterexample: when the post-kill `wait(timeout=5)` inside the
`TimeoutExpired` handler itself times out (a process stuck after
SIGKILL), the exception propagates out of `stop()` and
`self.process = None` is skipped, so `Stop()` does not always leave the
process state cleared when termination itself raises. -/
theorem stop_not_unconditionally_terminal :
    (liveClient.stop .killWaitTimedOut).2.2 = true ∧
    (liveClient.stop .killWaitTimedOut).1.process = some ⟨false⟩ ∧
    (liveClient.stop .killWaitTimedOut).1.process ≠ none :=
  ⟨rfl, rfl, by decide⟩

/-- C7 (amended): `Start()` on a running manager is a success no-op that
spawns nothing; `Stop()` on a never-started manager is a no-op returning
normally with no process actions; the running flag is always down after
`Stop()`; every `Stop()` that returns normally leaves the process state
cleared, whether or not the underlying process had already exited; but
when the forced termination itself raises (the post-kill wait timing
out, or the fallback handler's own kill/wait raising) the exception
propagates and the process reference is left unchanged. -/
theorem process_lifecycle_safety :
    (∀ (c : IPodClientState) (o : StartOutcome),
        procAlive c = true → c.start o = (true, c, false)) ∧
    (∀ o, initClient.stop o = (initClient, [], false)) ∧
    (∀ (c : IPodClientState) (o : StopOutcome), (c.stop o).1.running = false) ∧
    (∀ (c : IPodClientState) (o : StopOutcome),
        (c.stop o).2.2 = false → (c.stop o).1 = ⟨none, false⟩) ∧
    (∀ (c : IPodClientState) (o : StopOutcome),
        (c.stop o).2.2 = true → (c.stop o).1 = ⟨c.process, false⟩) := by
  refine ⟨?_, ?_, stop_running_false, stop_completes_clears, stop_raises_keeps⟩
  · intro c o h
    unfold IPodClientState.start
    rw [if_pos h]
  · intro o
    rfl

theorem process_lifecycle_safety_witness :
    (liveClient.start .spawnOk = (true, liveClient, false)) ∧
    (initClient.stop .graceful = (initClient, [], false)) ∧
    ((liveClient.stop .timedOut).1.running = false) ∧
    ((liveClient.stop .graceful).1 = ⟨none, false⟩) ∧
    ((liveClient.stop .killWaitTimedOut).1 = ⟨liveClient.process, false⟩) :=
  ⟨process_lifecycle_safety.1 liveClient .spawnOk (by decide),
   process_lifecycle_safety.2.1 .graceful,
   process_lifecycle_safety.2.2.1 liveClient .timedOut,
   process_lifecycle_safety.2.2.2.1 liveClient .graceful (by decide),
   process_lifecycle_safety.2.2.2.2 liveClient .killWaitTimedOut (by decide)⟩

/-- C8 (what the code actually does): no execution of `IPodClient.stop`
— raising or not — ever closes any of the child's streams; it only
terminates, kills and waits, so a `read_stdout_line` blocked on stdout
is not unblocked by a stream close. -/
theorem stop_never_closes_streams (c : IPodClientState) (o : StopOutcome) :
    ((c.stop o).2.1.filter closesStream) = [] := by
  unfold IPodClientState.stop
  by_cases h : procAlive c = true
  · rw [if_pos h]
    cases o with
    | graceful => rfl
    | timedOut => rfl
    | killWaitTimedOut => rfl
    | raised b => cases b <;> rfl
    | raisedThenKillRaises => rfl
  · rw [if_neg h]
    rfl

/-! ## `IPodClient.send_metadata` and `IPodClient.read_stdout_line` -/

/-- Outcome of the single `stdin.write`/`flush` of the whole burst:
succeeds, raises `BrokenPipeError`, or raises some other exception. -/
inductive WriteOutcome where
  | writeOk : WriteOutcome
  | brokenPipe : WriteOutcome
  | otherRaise : WriteOutcome
deriving DecidableEq

/-- `IPodClient.send_metadata`: guards on a live process, builds the
full burst and writes it with one `stdin.write` call.  Returns
`(result, new state, data delivered to the accessory)`, where the
result is `some b` when the call returns `b` and `none` when an
exception propagates out of `send_metadata`: on `BrokenPipeError` the
handler calls `self.stop()`, and if that `stop` itself raises, no
sibling handler catches it.  On any other write exception it returns
failure with the state untouched. -/
def send_metadata (c : IPodClientState) (t : TrackMetadata) (w : WriteOutcome)
    (so : StopOutcome) : Option Bool × IPodClientState × Option String :=
  if procAlive c = false then (some false, c, none)
  else
    match w with
    | .writeOk => (some true, c, some (metadataBurst t))
    | .brokenPipe =>
        ((if (c.stop so).2.2 then none else some false), (c.stop so).1, none)
    | .otherRaise => (some false, c, none)

/-- C6 counterexample: on a write failure that is not a broken pipe, the
burst is aborted and failure returned, but the manager is left exactly
as it was — still holding a live process — and the very next write
succeeds without any intervening `Start()`, so a write failure does not
always force the manager into a failed/stopped state. -/
theorem send_metadata_failure_counterexample :
    (send_metadata liveClient songA .otherRaise .graceful).1 = some false ∧
    (send_metadata liveClient songA .otherRaise .graceful).2.1 = liveClient ∧
    (send_metadata liveClient songA .otherRaise .graceful).2.1.process = some ⟨false⟩ ∧
    (send_metadata liveClient songA .writeOk .graceful).1 = some true := by
  refine ⟨rfl, rfl, rfl, rfl⟩

/-- C6 (amended): the write fails when no accessory process is active;
the accessory receives the whole burst or nothing (never a partial
burst); on a broken-pipe failure the handler invokes `stop()`: when that
`stop` completes, the write returns failure with the process state
cleared so a subsequent `Start()` is required before any further write
can succeed, and when the `stop` itself raises, the exception propagates
out of the write (no result, nothing delivered) with the process
reference not cleared; on other write exceptions failure is returned
with the manager state unchanged. -/
theorem send_metadata_failure_handling :
    (∀ (c : IPodClientState) t w so, procAlive c = false →
        send_metadata c t w so = (some false, c, none)) ∧
    (∀ (c : IPodClientState) t w so,
        (send_metadata c t w so).2.2 = none ∨
        (send_metadata c t w so).2.2 = some (metadataBurst t)) ∧
    (∀ (c : IPodClientState) t so, procAlive c = true → (c.stop so).2.2 = false →
        (send_metadata c t .brokenPipe so).1 = some false ∧
        (send_metadata c t .brokenPipe so).2.1 = ⟨none, false⟩ ∧
        ∀ t2 w2 so2,
          (send_metadata (send_metadata c t .brokenPipe so).2.1 t2 w2 so2).1 = some false) ∧
    (∀ (c : IPodClientState) t so, procAlive c = true → (c.stop so).2.2 = true →
        (send_metadata c t .brokenPipe so).1 = none ∧
        (send_metadata c t .brokenPipe so).2.2 = none) := by
  refine ⟨?_, ?_, ?_, ?_⟩
  · intro c t w so h
    unfold send_metadata
    rw [h, if_pos rfl]
  · intro c t w so
    unfold send_metadata
    by_cases h : procAlive c = false
    · rw [if_pos h]
      left
      rfl
    · rw [if_neg h]
      cases w with
      | writeOk => right; rfl
      | brokenPipe => left; rfl
      | otherRaise => left; rfl
  · intro c t so h hs
    have hne : ¬(procAlive c = false) := by simp [h]
    have hstate : (send_metadata c t .brokenPipe so).2.1 = ⟨none, false⟩ := by
      unfold send_metadata
      rw [if_neg hne]
      exact stop_completes_clears c so hs
    refine ⟨?_, hstate, ?_⟩
    · unfold send_metadata
      rw [if_neg hne]
      simp [hs]
    · intro t2 w2 so2
      rw [hstate]
      have hpf : procAlive (⟨none, false⟩ : IPodClientState) = false := rfl
      unfold send_metadata
      rw [if_pos hpf]
  · intro c t so h hs
    have hne : ¬(procAlive c = false) := by simp [h]
    constructor
    · unfold send_metadata
      rw [if_neg hne]
      simp [hs]
    · unfold send_metadata
      rw [if_neg hne]

theorem send_metadata_failure_handling_witness :
    (send_metadata initClient songA .writeOk .graceful = (some false, initClient, none)) ∧
    ((send_metadata liveClient songA .writeOk .graceful).2.2 = none ∨
      (send_metadata liveClient songA .writeOk .graceful).2.2 = some (metadataBurst songA)) ∧
    ((send_metadata liveClient songA .brokenPipe .graceful).1 = some false ∧
      (send_metadata liveClient songA .brokenPipe .graceful).2.1 = ⟨none, false⟩ ∧
      ∀ t2 w2 so2,
        (send_metadata (send_metadata liveClient songA .brokenPipe .graceful).2.1 t2 w2 so2).1
          = some false) ∧
    ((send_metadata liveClient songA .brokenPipe .killWaitTimedOut).1 = none ∧
      (send_metadata liveClient songA .brokenPipe .killWaitTimedOut).2.2 = none) :=
  ⟨send_metadata_failure_handling.1 initClient songA .writeOk .graceful (by decide),
   send_metadata_failure_handling.2.1 liveClient songA .writeOk .graceful,
   send_metadata_failure_handling.2.2.1 liveClient songA .graceful (by decide) (by decide),
   send_metadata_failure_handling.2.2.2 liveClient songA .killWaitTimedOut (by decide) (by decide)⟩

/-- Outcome of the blocking `stdout.readline`: end-of-stream (empty
bytes), a decoded line (already stripped), or an exception while the
process either has (`true`) or has not (`false`) exited. -/
inductive ReadOutcome where
  | eof : ReadOutcome
  | gotLine : String → ReadOutcome
  | readRaise : Bool → ReadOutcome
deriving DecidableEq

/-- `IPodClient.read_stdout_line`: `none` when no live process, on
end-of-stream, or on an exception with the process already exited;
the stripped line on success; the empty string on an exception while
the process is still alive. -/
def read_stdout_line (c : IPodClientState) (o : ReadOutcome) : Option String :=
  if procAlive c = false then none
  else
    match o with
    | .eof => none
    | .gotLine s => some s.trim
    | .readRaise procExited => if procExited then none else some ""

/-- C10: with a live process, a read/decode error returns the empty
string — not `None`, which is reserved for end-of-stream and process
exit — and the monitor loop skips an empty line and keeps running, so a
transient read error neither terminates the command loop nor is mistaken
for process exit. -/
theorem read_error_not_eof :
    (∀ (c : IPodClientState), procAlive c = true →
        read_stdout_line c (.readRaise false) = some "" ∧
        read_stdout_line c (.readRaise true) = none ∧
        read_stdout_line c .eof = none) ∧
    monitorStep (some "") = .skipLine ∧
    stopsLoop (monitorStep (some "")) = false ∧
    adapterCalls (monitorStep (some "")) = 0 ∧
    monitorStep none = .exitLoop := by
  refine ⟨?_, rfl, rfl, rfl, rfl⟩
  intro c h
  simp [read_stdout_line, h]

theorem read_error_not_eof_witness :
    (read_stdout_line liveClient (.readRaise false) = some "" ∧
     read_stdout_line liveClient (.readRaise true) = none ∧
     read_stdout_line liveClient .eof = none) ∧
    monitorStep (some "") = .skipLine :=
  ⟨read_error_not_eof.1 liveClient (by decide), read_error_not_eof.2.1⟩

/-! ## `BluetoothAudioReceiver.check_connection_and_update_pulseaudio` -/

/-- The `org.bluez.Device1` properties the check inspects. -/
structure DeviceProps where
  connected : Bool
  servicesResolved : Bool
  hasA2dpUuid : Bool
  address : String
deriving DecidableEq

/-- One entry of `GetManagedObjects()`: its object path, and its
`Device1` properties when the object carries that interface. -/
structure DBusEntry where
  path : String
  device : Option DeviceProps
deriving DecidableEq

/-- The receiver's connection state: `connected_device_mac`,
`connected_device_path`, and whether `media_player_path`/`iface` are
set. -/
structure BtState where
  connected_device_mac : Option String
  connected_device_path : Option String
  media_player_set : Bool
deriving DecidableEq

/-- The scan condition: the object is a connected, service-resolved
device advertising an A2DP UUID whose address differs from the current
`connected_device_mac` (a string never equals `None`). -/
def qualifies (curMac : Option String) (e : DBusEntry) : Bool :=
  match e.device with
  | some d =>
      d.connected && d.servicesResolved && d.hasA2dpUuid &&
        decide (some d.address ≠ curMac)
  | none => false

/-- The scan loop: the first qualifying device found, if any
(`newly_connected_mac` plus the `break`). -/
def findNewDevice (curMac : Option String) (objs : List DBusEntry) : Option DBusEntry :=
  objs.find? (qualifies curMac)

/-- Address of a scan hit. -/
def macOf (e : DBusEntry) : String :=
  match e.device with
  | some d => d.address
  | none => ""

/-- `self.connected_device_path not in objects`, negated. -/
def pathInObjects (p : String) (objs : List DBusEntry) : Bool :=
  objs.any (fun e => decide (e.path = p))

/-- What one call to the connection check produces: the returned MAC,
the new receiver state, whether a PulseAudio loopback was configured for
a device (`_update_pulseaudio_config` succeeded), and whether the
loopback was cleared in the device-loss branch
(`_clear_pulseaudio_loopback`). -/
structure CheckResult where
  returnedMac : Option String
  state : BtState
  routeBound : Bool
  routeCleared : Bool
deriving DecidableEq

/-- `BluetoothAudioReceiver.check_connection_and_update_pulseaudio`:
`busOk` is whether `self.bus` is available, `dbusRaises` whether
`GetManagedObjects` raises a `DBusException`, `objs` the managed
objects, and `pulseOk` the outcome of `_update_pulseaudio_config`.
Mirrors the Python control flow: a scan hit updates
`connected_device_path` and `connected_device_mac`, reverts only the MAC
and returns `None` when the PulseAudio update fails, and resets the
player cache on success; with no scan hit, the stale-device cleanup runs
only under `elif not self.connected_device_mac`. -/
def check_connection_and_update_pulseaudio (s : BtState) (busOk : Bool)
    (dbusRaises : Bool) (objs : List DBusEntry) (pulseOk : Bool) : CheckResult :=
  if busOk = false then ⟨none, s, false, false⟩
  else if dbusRaises then ⟨none, ⟨none, none, false⟩, false, false⟩
  else
    match findNewDevice s.connected_device_mac objs with
    | some e =>
        if pulseOk then
          ⟨some (macOf e), ⟨some (macOf e), some e.path, false⟩, true, false⟩
        else
          ⟨none, ⟨s.connected_device_mac, some e.path, s.media_player_set⟩, false, false⟩
    | none =>
        if s.connected_device_mac = none then
          match s.connected_device_path with
          | some p =>
              if pathInObjects p objs then ⟨s.connected_device_mac, s, false, false⟩
              else ⟨none, ⟨none, none, false⟩, false, true⟩
          | none => ⟨s.connected_device_mac, s, false, false⟩
        else ⟨s.connected_device_mac, s, false, false⟩

/-- C9: when the PulseAudio route configuration for a newly detected
device fails, the check leaves `connected_device_mac` exactly as it was
before the call and reports no device (`None`), so a failed route bind
never adopts the new device as active. -/
theorem route_bind_failure_atomic (s : BtState) (objs : List DBusEntry) :
    (check_connection_and_update_pulseaudio s true false objs false).state.connected_device_mac
        = s.connected_device_mac ∧
    ((findNewDevice s.connected_device_mac objs).isSome = true →
      (check_connection_and_update_pulseaudio s true false objs false).returnedMac = none) := by
  unfold check_connection_and_update_pulseaudio
  cases hf : findNewDevice s.connected_device_mac objs with
  | some e => simp [hf]
  | none =>
    refine ⟨?_, by simp [hf]⟩
    by_cases hm : s.connected_device_mac = none
    · cases hp : s.connected_device_path with
      | some p =>
        by_cases hin : pathInObjects p objs = true <;>
          simp [hf, hm, hp, hin]
      | none => simp [hf, hm, hp]
    · simp [hf, hm]

/-- Witness: a bind failure for a concrete newly seen device leaves the
previous (absent) MAC in place and reports no device. -/
theorem route_bind_failure_atomic_witness :
    (check_connection_and_update_pulseaudio ⟨none, none, false⟩ true false
        [⟨"/org/bluez/hci0/dev_AA", some ⟨true, true, true, "AA:BB:CC:DD:EE:FF"⟩⟩]
        false).state.connected_device_mac = none ∧
    (check_connection_and_update_pulseaudio ⟨none, none, false⟩ true false
        [⟨"/org/bluez/hci0/dev_AA", some ⟨true, true, true, "AA:BB:CC:DD:EE:FF"⟩⟩]
        false).returnedMac = none :=
  ⟨(route_bind_failure_atomic ⟨none, none, false⟩
      [⟨"/org/bluez/hci0/dev_AA", some ⟨true, true, true, "AA:BB:CC:DD:EE:FF"⟩⟩]).1,
   (route_bind_failure_atomic ⟨none, none, false⟩
      [⟨"/org/bluez/hci0/dev_AA", some ⟨true, true, true, "AA:BB:CC:DD:EE:FF"⟩⟩]).2
     (by decide)⟩

/-- The receiver state with device `AA:BB:CC:DD:EE:FF` active. -/
def activeReceiver : BtState :=
  ⟨some "AA:BB:CC:DD:EE:FF", some "/org/bluez/hci0/dev_AA_BB_CC_DD_EE_FF", true⟩

/-- C2 (what the code actually does): when the active device disappears
from the adapter's managed objects entirely, a full connection check
returns the stale MAC and changes nothing — the active handle is kept,
the media-player cache is kept, and the loopback route is not cleared —
because the cleanup branch is guarded by `elif not
self.connected_device_mac` and is therefore unreachable while a device
is recorded as active. -/
theorem device_loss_not_cleaned_up :
    check_connection_and_update_pulseaudio activeReceiver true false [] true =
      ⟨some "AA:BB:CC:DD:EE:FF", activeReceiver, false, false⟩ := by
  decide

end BtIpodBridge
